import Mathlib

/-!
Verification of the VitePress site configuration in
`docs/.vitepress/config.mts` of the f2 repository.

The configuration file only builds nested object/array literals and passes
them to the framework entry point `defineConfig`. We embed those literals as
values of a JSON-like inductive type `JVal`, keeping the source's key names,
string values and ordering exactly, and prove structural properties about
the resulting data.
-/

namespace F2

/-- A JSON-like configuration value: strings, booleans, numbers, arrays and
objects (ordered association lists of string keys). -/
inductive JVal where
  | str (s : String)
  | bool (b : Bool)
  | num (n : Nat)
  | arr (xs : List JVal)
  | obj (fields : List (String × JVal))

/-- The fields of an object value (empty for non-objects). -/
def JVal.objFields : JVal → List (String × JVal)
  | .obj fs => fs
  | _ => []

/-- The keys of an object value, in source order. -/
def JVal.keys (v : JVal) : List String :=
  v.objFields.map Prod.fst

/-- Look up the value bound to a key in an object value. -/
def JVal.lookup (v : JVal) (k : String) : Option JVal :=
  (v.objFields.find? (fun p => p.fst == k)).map Prod.snd

/-- The elements of an array value (empty for non-arrays). -/
def JVal.items : JVal → List JVal
  | .arr xs => xs
  | _ => []

/-- Extract the string carried by a string value. -/
def JVal.getStr : JVal → Option String
  | .str s => some s
  | _ => none

/-- The `i`-th entry of a navigation array (an empty object out of range). -/
def navEntry (nav : JVal) (i : Nat) : JVal :=
  nav.items.getD i (.obj [])

/-- The string field `k` of the `i`-th entry of a navigation array. -/
def entryStr (nav : JVal) (i : Nat) (k : String) : Option String :=
  ((navEntry nav i).lookup k).bind JVal.getStr

/-- The list of groups a sidebar mapping associates to a URL path key. -/
def sidebarGroups (sb : JVal) (k : String) : List JVal :=
  ((sb.lookup k).getD (.arr [])).items

/-- The items of one sidebar group. -/
def groupItems (g : JVal) : List JVal :=
  ((g.lookup "items").getD (.arr [])).items

/-- The link targets of the items of one sidebar group, in order. -/
def itemLinks (g : JVal) : List String :=
  (groupItems g).filterMap (fun e => (e.lookup "link").bind JVal.getStr)

/-- Source constant `version` (`const version = "v0.0.1-pw.1"`). -/
def version : String := "v0.0.1-pw.1"

/-- Source function `cn_nav`: navigation entries of the root (Chinese)
locale. A nullary function in the source; modelled as a function on `Unit`. -/
def cn_nav (_u : Unit) : JVal :=
  .arr [
    .obj [("text", .str "指南"),
          ("link", .str "/guide/what-is-f2"),
          ("activeMatch", .str "/guide/")],
    .obj [("text", .str "参考"),
          ("link", .str "/reference/site-config"),
          ("activeMatch", .str "/reference/")],
    .obj [("text", .str version),
          ("items", .arr [
            .obj [("text", .str "更新日志"),
                  ("link", .str "https://github.com/Johnserf-Seed/f2/blob/main/CHANGELOG.md")],
            .obj [("text", .str "贡献指南"),
                  ("link", .str "https://github.com/Johnserf-Seed/f2/blob/main/.github/contributing.md")]])]
  ]

/-- Source function `en_nav`: navigation entries of the English locale. -/
def en_nav (_u : Unit) : JVal :=
  .arr [
    .obj [("text", .str "guide"),
          ("link", .str "/en/guide/what-is-f2"),
          ("activeMatch", .str "/guide/")],
    .obj [("text", .str "reference"),
          ("link", .str "/en/reference/site-config"),
          ("activeMatch", .str "/reference/")],
    .obj [("text", .str version),
          ("items", .arr [
            .obj [("text", .str "Changelog"),
                  ("link", .str "https://github.com/Johnserf-Seed/f2/blob/main/CHANGELOG.md")],
            .obj [("text", .str "Contributing"),
                  ("link", .str "https://github.com/Johnserf-Seed/f2/blob/main/.github/contributing.md")]])]
  ]

/-- The sidebar mapping of the root (Chinese) locale. -/
def rootSidebar : JVal :=
  .obj [
    ("/", .arr [
      .obj [("text", .str "快速入门"),
            ("items", .arr [
              .obj [("text", .str "安装"), ("link", .str "/install")],
              .obj [("text", .str "快速使用"), ("link", .str "/quick-start")],
              .obj [("text", .str "进阶用法"), ("link", .str "/advance-guide")]])]]),
    ("/guide/", .arr [
      .obj [("text", .str "指南"),
            ("items", .arr [
              .obj [("text", .str "使用示例"), ("link", .str "/api-examples")]])]])
  ]

/-- The sidebar mapping of the English locale. -/
def enSidebar : JVal :=
  .obj [
    ("/", .arr [
      .obj [("text", .str "Quick Start"),
            ("items", .arr [
              .obj [("text", .str "Install"), ("link", .str "/en/install")],
              .obj [("text", .str "Quick Start"), ("link", .str "/en/quick-start")],
              .obj [("text", .str "Advance Guide"), ("link", .str "/en/advance-guide")]])]]),
    ("/guide/", .arr [
      .obj [("text", .str "Guide"),
            ("items", .arr [
              .obj [("text", .str "API Examples"), ("link", .str "/api-examples")]])]])
  ]

/-- The `algolia` record of the theme config. -/
def algolia : JVal :=
  .obj [("appId", .str ""), ("apiKey", .str ""), ("indexName", .str "f2")]

/-- The `locales` mapping: root (Chinese) and English locale records. -/
def locales (u : Unit) : JVal :=
  .obj [
    ("root", .obj [
      ("label", .str "简体中文"),
      ("lang", .str "zh"),
      ("themeConfig", .obj [
        ("nav", cn_nav u),
        ("sidebar", rootSidebar)])]),
    ("en", .obj [
      ("label", .str "English"),
      ("lang", .str "en"),
      ("themeConfig", .obj [
        ("nav", en_nav u),
        ("sidebar", enSidebar)])])
  ]

/-- The top-level `themeConfig` record. -/
def themeConfig : JVal :=
  .obj [
    ("logo", .obj [("src", .str "/f2-logo.ico"), ("width", .num 256), ("height", .num 256)]),
    ("socialLinks", .arr [
      .obj [("icon", .str "github"), ("link", .str "https://github.com/Johnserf-Seed/f2")],
      .obj [("icon", .str "discord"), ("link", .str "https://discord.gg/3PhtPmgHf8")]]),
    ("algolia", algolia),
    ("footer", .obj [
      ("message", .str "Released under the Apache-2.0 license."),
      ("copyright", .str "Copyright © 2023-present Johnserf Seed")]),
    ("editLink", .obj [
      ("pattern", .str "https://github.com/Johnserf-Seed/f2/edit/main/docs/:path"),
      ("text", .str "Edit this page on GitHub")])
  ]

/-- The full configuration record passed to `defineConfig`, as constructed by
the source file. Parameterised on `Unit` to model one invocation of the
construction. -/
def siteConfig (u : Unit) : JVal :=
  .obj [
    ("title", .str "F2"),
    ("description", .str "Fast 2 Every"),
    ("base", .str "/f2/"),
    ("lastUpdated", .bool true),
    ("head", .arr [
      .arr [.str "link",
            .obj [("rel", .str "icon"), ("type", .str "image/svg+xml"), ("href", .str "/f2-logo.ico")]]]),
    ("themeConfig", themeConfig),
    ("locales", locales u)
  ]

end F2

namespace F2

/-- One group of a sidebar mapping: the `i`-th group under URL path key `k`. -/
def sidebarGroup (sb : JVal) (k : String) (i : Nat) : JVal :=
  (sidebarGroups sb k).getD i (.obj [])

/-- Whether the string `s` starts with the path fragment `p`. -/
def strStarts (p s : String) : Bool :=
  s.data.take p.data.length == p.data

/-- C1 counterexample: it is not the case that the three algolia fields
appId, apiKey and indexName are all empty strings — indexName is "f2". -/
theorem algolia_not_all_empty :
    ¬ ((F2.algolia.lookup "appId").bind JVal.getStr = some "" ∧
       (F2.algolia.lookup "apiKey").bind JVal.getStr = some "" ∧
       (F2.algolia.lookup "indexName").bind JVal.getStr = some "") := by
  decide

/-- C1 (amended): in the theme config's algolia record, appId and apiKey are
empty strings, while indexName is the non-empty string "f2". -/
theorem algolia_credentials :
    (F2.algolia.lookup "appId").bind JVal.getStr = some "" ∧
    (F2.algolia.lookup "apiKey").bind JVal.getStr = some "" ∧
    (F2.algolia.lookup "indexName").bind JVal.getStr = some "f2" ∧
    "f2" ≠ "" := by
  decide

/-- C2: each locale's navigation builder returns a non-empty sequence of
exactly three entries, in order: a guide entry (active match "/guide/"), a
reference entry (active match "/reference/"), and a version dropdown entry
(text is the version constant and it carries a dropdown items list). -/
theorem nav_builders_three_entries :
    (0 < (cn_nav ()).items.length ∧ (cn_nav ()).items.length = 3 ∧
      entryStr (cn_nav ()) 0 "activeMatch" = some "/guide/" ∧
      entryStr (cn_nav ()) 1 "activeMatch" = some "/reference/" ∧
      entryStr (cn_nav ()) 2 "text" = some F2.version ∧
      (((navEntry (cn_nav ()) 2).lookup "items").getD (.arr [])).items.length = 2) ∧
    (0 < (en_nav ()).items.length ∧ (en_nav ()).items.length = 3 ∧
      entryStr (en_nav ()) 0 "activeMatch" = some "/guide/" ∧
      entryStr (en_nav ()) 1 "activeMatch" = some "/reference/" ∧
      entryStr (en_nav ()) 2 "text" = some F2.version ∧
      (((navEntry (en_nav ()) 2).lookup "items").getD (.arr [])).items.length = 2) := by
  decide

/-- C3 counterexample: not every navigation item produced by the builders has
all of text, link and activeMatch — the third entry of cn_nav has no link. -/
theorem nav_item_without_link :
    "link" ∉ JVal.keys (navEntry (cn_nav ()) 2) ∧
    ¬ ∀ e ∈ (cn_nav ()).items ++ (en_nav ()).items,
        ("text" ∈ JVal.keys e ∧ "link" ∈ JVal.keys e ∧ "activeMatch" ∈ JVal.keys e) := by
  decide

/-- C3 (amended): in each builder the first two navigation entries have
exactly the fields text, link and activeMatch, while the third (version
dropdown) entry has exactly text and items — no link and no activeMatch. -/
theorem nav_items_fields :
    JVal.keys (navEntry (cn_nav ()) 0) = ["text", "link", "activeMatch"] ∧
    JVal.keys (navEntry (cn_nav ()) 1) = ["text", "link", "activeMatch"] ∧
    JVal.keys (navEntry (cn_nav ()) 2) = ["text", "items"] ∧
    JVal.keys (navEntry (en_nav ()) 0) = ["text", "link", "activeMatch"] ∧
    JVal.keys (navEntry (en_nav ()) 1) = ["text", "link", "activeMatch"] ∧
    JVal.keys (navEntry (en_nav ()) 2) = ["text", "items"] := by
  decide

/-- C4: the two locales are structurally parallel — equal navigation lengths,
equal sidebar key lists, and under corresponding URL keys the same number of
groups with the same number of items per group. -/
theorem locales_structurally_parallel :
    (cn_nav ()).items.length = (en_nav ()).items.length ∧
    JVal.keys rootSidebar = JVal.keys enSidebar ∧
    (sidebarGroups rootSidebar "/").length = (sidebarGroups enSidebar "/").length ∧
    (sidebarGroups rootSidebar "/guide/").length = (sidebarGroups enSidebar "/guide/").length ∧
    ((sidebarGroups rootSidebar "/").map (fun g => (groupItems g).length)) =
      ((sidebarGroups enSidebar "/").map (fun g => (groupItems g).length)) ∧
    ((sidebarGroups rootSidebar "/guide/").map (fun g => (groupItems g).length)) =
      ((sidebarGroups enSidebar "/guide/").map (fun g => (groupItems g).length)) := by
  decide

/-- C5: constructing the configuration is deterministic — any two invocations
of the construction (and of the nullary builders) yield identical output. -/
theorem config_deterministic (u v : Unit) :
    siteConfig u = siteConfig v ∧ cn_nav u = cn_nav v ∧ en_nav u = en_nav v := by
  cases u
  cases v
  exact ⟨rfl, rfl, rfl⟩

/-- C5 witness: the determinism theorem applied at two concrete invocations. -/
theorem config_deterministic_witness :
    siteConfig () = siteConfig () ∧ cn_nav () = cn_nav () ∧ en_nav () = en_nav () :=
  config_deterministic () ()

/-- C6: within each locale's sidebar mapping, the URL-prefix keys are exactly
"/" and "/guide/", each occurring once, so the keys are pairwise distinct. -/
theorem sidebar_keys_distinct :
    JVal.keys rootSidebar = ["/", "/guide/"] ∧ (JVal.keys rootSidebar).Nodup ∧
    JVal.keys enSidebar = ["/", "/guide/"] ∧ (JVal.keys enSidebar).Nodup := by
  decide

/-- C7: the locales mapping has exactly the two distinct keys root and en. -/
theorem locale_keys_distinct :
    JVal.keys (locales ()) = ["root", "en"] ∧ (JVal.keys (locales ())).Nodup := by
  decide

/-- C8: the configuration record has exactly the recognized top-level keys,
and every key of its themeConfig record is among the recognized theme keys. -/
theorem config_recognized_keys :
    JVal.keys (siteConfig ()) =
      ["title", "description", "base", "lastUpdated", "head", "themeConfig", "locales"] ∧
    ∀ k ∈ JVal.keys F2.themeConfig,
      k ∈ ["logo", "socialLinks", "algolia", "footer", "editLink", "nav", "sidebar"] := by
  decide

/-- C9: the English navigation's guide and reference entries use the active
match values "/guide/" and "/reference/", identical to the Chinese locale's,
even though their link targets live under the "/en/" path. -/
theorem en_nav_active_match :
    entryStr (en_nav ()) 0 "activeMatch" = some "/guide/" ∧
    entryStr (en_nav ()) 1 "activeMatch" = some "/reference/" ∧
    entryStr (en_nav ()) 0 "activeMatch" = entryStr (cn_nav ()) 0 "activeMatch" ∧
    entryStr (en_nav ()) 1 "activeMatch" = entryStr (cn_nav ()) 1 "activeMatch" ∧
    entryStr (en_nav ()) 0 "link" = some "/en/guide/what-is-f2" ∧
    entryStr (en_nav ()) 1 "link" = some "/en/reference/site-config" ∧
    strStarts "/en/" ((entryStr (en_nav ()) 0 "link").getD "") = true ∧
    strStarts "/en/" ((entryStr (en_nav ()) 1 "link").getD "") = true := by
  decide

/-- C10: the English sidebar's single "/guide/" item links to "/api-examples"
(no "/en/" path), every item of the English "/" group links under "/en/",
and the root locale's "/guide/" item links to the same "/api-examples". -/
theorem en_guide_sidebar_link :
    itemLinks (sidebarGroup enSidebar "/guide/" 0) = ["/api-examples"] ∧
    itemLinks (sidebarGroup rootSidebar "/guide/" 0) = ["/api-examples"] ∧
    strStarts "/en/" "/api-examples" = false ∧
    itemLinks (sidebarGroup enSidebar "/" 0) = ["/en/install", "/en/quick-start", "/en/advance-guide"] ∧
    ∀ l ∈ itemLinks (sidebarGroup enSidebar "/" 0), strStarts "/en/" l = true := by
  decide

end F2
